import Mathlib

set_option linter.unusedVariables false
set_option maxRecDepth 100000

/-!
Verification of the `ipmi-exporter-operator` charm (`src/charm.py`) against its
natural-language specification.

The Python module is shallowly embedded: each charm operation becomes a pure
Lean function from an explicit host/environment state to a result.  Python
exceptions are modelled with `Except`; `subprocess.call` (which returns the
exit status and never raises) is modelled by ignoring the exit-code argument,
exactly as the source discards the returned value.
-/

/-! ### Generic list/string helpers used by several embeddings -/

/-- Does `pat` occur at the very front of `l`? -/
def leadsWith : List Char → List Char → Bool
  | [], _ => true
  | _ :: _, [] => false
  | p :: ps, c :: cs => p == c && leadsWith ps cs

/-- Does `pat` occur anywhere inside `l`?  Models Python's `pat in s`. -/
def containsSeq (pat : List Char) : List Char → Bool
  | [] => leadsWith pat []
  | c :: rest => leadsWith pat (c :: rest) || containsSeq pat rest

/-- String wrapper for `containsSeq`: Python's `pat in s`. -/
def strContains (s pat : String) : Bool :=
  containsSeq pat.toList s.toList

/-- Python's `s.split(sep)` for a single-character separator: the list of
(possibly empty) fields.  `"".split(sep) = [""]` and a string without the
separator yields the one-element list, as in Python. -/
def splitChar (sep : Char) : List Char → List (List Char)
  | [] => [[]]
  | c :: rest =>
    if c = sep then [] :: splitChar sep rest
    else
      match splitChar sep rest with
      | [] => [[c]]
      | h :: t => (c :: h) :: t

/-- The suffix of `l` after the first occurrence of `sep`, if any. -/
def afterFirst (sep : Char) : List Char → Option (List Char)
  | [] => none
  | c :: rest => if c = sep then some rest else afterFirst sep rest

/-- The portion of `l` strictly before the first occurrence of `sep`
(all of `l` when `sep` does not occur). -/
def upTo (sep : Char) : List Char → List Char
  | [] => []
  | c :: rest => if c = sep then [] else c :: upTo sep rest

/-- Strip leading and trailing whitespace, as Python's `str.strip()`. -/
def trimWS (l : List Char) : List Char :=
  ((l.dropWhile Char.isWhitespace).reverse.dropWhile Char.isWhitespace).reverse

/-- Is the `Except` value a success? -/
def exOk {ε α : Type} : Except ε α → Bool
  | Except.ok _ => true
  | Except.error _ => false

/-! ### Host state and teardown (`_uninstall_ipmi_exporter`, `_on_stop`)

`charm.py` lines 99–103 and 153–167.  The teardown removes five filesystem
resources with bare `Path.unlink()` / `shutil.rmtree()` calls (both raise
`FileNotFoundError` when the path is absent — no `missing_ok`, no
`ignore_errors`), and then removes the user and group with `subprocess.call`,
whose exit status is discarded, so an absent user/group is tolerated. -/

/-- Python-level filesystem errors relevant to the teardown path. -/
inductive PyErr
  | fileNotFound
deriving DecidableEq

/-- Presence flags for every host resource the charm provisions. -/
structure HostResources where
  binaryFile : Bool
  serviceUnitFile : Bool
  sysconfigFile : Bool
  configYaml : Bool
  stateDir : Bool
  userExists : Bool
  groupExists : Bool
deriving DecidableEq

/-- `Path.unlink()` with no `missing_ok`: raises `FileNotFoundError` when the
file is absent (charm.py lines 157–160). -/
def pyUnlink (present : Bool) : Except PyErr Unit :=
  if present then Except.ok () else Except.error PyErr.fileNotFound

/-- `shutil.rmtree(path)` with no `ignore_errors`: raises when the directory
is absent (charm.py line 161). -/
def pyRmtree (present : Bool) : Except PyErr Unit :=
  if present then Except.ok () else Except.error PyErr.fileNotFound

/-- `_uninstall_ipmi_exporter` (charm.py lines 153–167): unlink the binary,
unit file, sysconfig file and config YAML, `rmtree` the state directory, then
`subprocess.call(["userdel", ...])` and `subprocess.call(["groupdel", ...])`
with the exit statuses discarded. -/
def uninstallIpmiExporter (st : HostResources) : Except PyErr HostResources := do
  pyUnlink st.binaryFile
  pyUnlink st.serviceUnitFile
  pyUnlink st.sysconfigFile
  pyUnlink st.configYaml
  pyRmtree st.stateDir
  Except.ok ⟨false, false, false, false, false, false, false⟩

/-- `_on_stop` (charm.py lines 99–103): `systemctl stop` and
`systemctl disable` via `subprocess.call` (exit statuses discarded, so they
never raise), then `_uninstall_ipmi_exporter`. -/
def onStopHandler (stopExit disableExit : Int) (st : HostResources) :
    Except PyErr HostResources :=
  uninstallIpmiExporter st

/-! ### Dependency package step (`_install_freeipmi`)

`charm.py` lines 195–203: run `dpkg -l freeipmi`, and invoke
`apt-get install -y freeipmi` when the string `"no packages found"` is NOT a
substring of the lower-cased query stdout. -/

/-- Python's `str.lower()` (restricted to the ASCII range, which is all the
`dpkg` output uses): lower-case every character. -/
def pyLower (s : String) : String :=
  String.mk (s.toList.map Char.toLower)

/-- Does `_install_freeipmi` invoke the installer, as a function of the
captured stdout of `dpkg -l freeipmi`?  Direct transcription of the test
`if "no packages found" not in result.stdout.decode().lower():`. -/
def installFreeipmiRunsInstaller (queryOut : String) : Bool :=
  !(strContains (pyLower queryOut) "no packages found")

/-! ### Theorems for claims C1 and C2 -/

/-- Claim C1 counterexample: the claim states that every deletion step of
`handleStop`'s teardown treats "not found" as success, so teardown succeeds
from every host state.  On the concrete host state in which only the binary
is already absent (all other resources present), the very first
`Path.unlink()` raises `FileNotFoundError` and the teardown fails. -/
theorem on_stop_teardown_raises_when_binary_absent :
    exOk (onStopHandler 0 0 ⟨false, true, true, true, true, true, true⟩) = false := rfl

/-- Claim C1 (amended): `handleStop`'s teardown tolerates an already-absent
user or group (their deletion exit codes are discarded), but each of the five
filesystem removals is a bare `unlink`/`rmtree` that raises when its path is
absent: for every host state and supervisor exit codes, the teardown succeeds
iff the binary, unit file, sysconfig file, config file and state directory are
all present; when it succeeds, every provisioned resource is removed. -/
theorem on_stop_teardown_success_iff :
    (∀ stopExit disableExit : Int, ∀ st : HostResources,
      exOk (onStopHandler stopExit disableExit st)
        = (st.binaryFile && st.serviceUnitFile && st.sysconfigFile
            && st.configYaml && st.stateDir)) ∧
    (∀ u g : Bool,
      onStopHandler 0 0 ⟨true, true, true, true, true, u, g⟩
        = Except.ok ⟨false, false, false, false, false, false, false⟩) := by
  constructor
  · intro stopExit disableExit st
    rcases st with ⟨b, s, y, c, d, u, g⟩
    cases b <;> cases s <;> cases y <;> cases c <;> cases d <;> rfl
  · intro u g
    rfl

/-- Claim C2: the dependency step must invoke the installer iff the freeipmi
package is genuinely absent.  The code's condition is inverted: when the
query output reports `no packages found` (the package is absent) the installer
is skipped, and when the output shows the package installed (an `ii` listing,
which does not contain `no packages found`) the installer is invoked. -/
theorem install_freeipmi_condition_inverted :
    installFreeipmiRunsInstaller
        "dpkg-query: no packages found matching freeipmi" = false ∧
    installFreeipmiRunsInstaller
        "ii  freeipmi  1.6.9-2build1  amd64  GNU implementation of the IPMI protocol"
      = true := ⟨by decide, by decide⟩

/-! ### Version discovery (`_set_charm_version`)

`charm.py` lines 105–110: run `/usr/bin/ipmi_exporter --version`, then
`re.search(r'([0-9]+.[0-9]+.[0-9]+)', output).group(0)`.  Note the dots in
the pattern are NOT escaped: they are the regex wildcard (any character except
a newline).  The embedding below reproduces Python's leftmost search and its
greedy backtracking order for the pattern `[0-9]+ ANY [0-9]+ ANY [0-9]+`. -/

/-- Length of the maximal run of ASCII digits at the front of `s`. -/
def digitRun : List Char → Nat
  | [] => 0
  | c :: rest => if c.isDigit then digitRun rest + 1 else 0

/-- `[n, n-1, ..., 1]`: the order in which a greedy `+` tries shorter
matches while backtracking. -/
def countdown : Nat → List Nat
  | 0 => []
  | n + 1 => (n + 1) :: countdown n

/-- First success of `f` over the candidate list, in order. -/
def firstSome (f : Nat → Option Nat) : List Nat → Option Nat
  | [] => none
  | a :: rest =>
    match f a with
    | some b => some b
    | none => firstSome f rest

/-- Try `[0-9]{k2} ANY [0-9]+` against `s2`, with the final `[0-9]+` greedy.
Returns the number of characters consumed.  `ANY` is the unescaped `.`,
matching every character except `'\n'`. -/
def trySecond (s2 : List Char) (k2 : Nat) : Option Nat :=
  match s2.drop k2 with
  | [] => none
  | c :: s4 =>
    if c = '\n' then none
    else if digitRun s4 = 0 then none
    else some (k2 + 1 + digitRun s4)

/-- Try `[0-9]{k1} ANY [0-9]+ ANY [0-9]+` against `s`, backtracking over the
length of the middle digit run in greedy order. -/
def tryFirst (s : List Char) (k1 : Nat) : Option Nat :=
  match s.drop k1 with
  | [] => none
  | c :: s2 =>
    if c = '\n' then none
    else
      match firstSome (trySecond s2) (countdown (digitRun s2)) with
      | none => none
      | some m => some (k1 + 1 + m)

/-- Length of the match of `[0-9]+.[0-9]+.[0-9]+` (dots unescaped) anchored at
the front of `s`, in Python's greedy/backtracking preference order. -/
def reMatchAt (s : List Char) : Option Nat :=
  firstSome (tryFirst s) (countdown (digitRun s))

/-- Python's `re.search`: the match at the leftmost position where one
exists. -/
def reSearch : List Char → Option (List Char)
  | [] => none
  | c :: rest =>
    match reMatchAt (c :: rest) with
    | some n => some ((c :: rest).take n)
    | none => reSearch rest

/-- Outcome of `_set_charm_version` as a function of the version-query
stdout. -/
inductive VersionResult
  | found (v : String)
  | parseFailure
deriving DecidableEq

/-- `_set_charm_version` (charm.py lines 105–110): search the output with
`([0-9]+.[0-9]+.[0-9]+)` and report `group(0)`; when there is no match,
`re.search` returns `None` and `.group(0)` raises (`parseFailure`). -/
def setCharmVersionModel (output : String) : VersionResult :=
  match reSearch output.toList with
  | some l => VersionResult.found (String.mk l)
  | none => VersionResult.parseFailure

/-- A dotted triple `[0-9]+ '.' [0-9]+ '.' [0-9]+` with LITERAL dots anchored
at the front of `s` — the shape `N.N.N` the specification describes. -/
def dottedTripleAt (s : List Char) : Bool :=
  if digitRun s = 0 then false
  else
    match s.drop (digitRun s) with
    | '.' :: s2 =>
      if digitRun s2 = 0 then false
      else
        match s2.drop (digitRun s2) with
        | '.' :: s4 => digitRun s4 != 0
        | _ => false
    | _ => false

/-- Does `s` contain a dotted-triple substring of the form `N.N.N` (with
literal dots)? -/
def hasDottedTriple : List Char → Bool
  | [] => false
  | c :: rest => dottedTripleAt (c :: rest) || hasDottedTriple rest

/-! ### Installation (`_install_ipmi_exporter`, charm.py lines 113–150)

The body is straight-line: download the archive to
`/tmp/ipmi-exporter.tar.gz`, open it, extract inside a `TemporaryDirectory`
context manager, copy the binary to `/usr/bin/ipmi_exporter`, then — only on
the normal path — `output.unlink()`, followed by the six provisioning calls.
The `with` block removes the scratch directory both on normal exit and when
an exception propagates; the archive `unlink` at line 143 is NOT inside a
`try/finally`, so it is skipped when extraction or the copy raises. -/

/-- The provisioning steps, in source order. -/
inductive Step
  | download
  | extractArchive
  | copyBinary
  | freeipmi
  | userGroup
  | configFile
  | sudoers
  | serviceUnit
  | sysconfig
deriving DecidableEq

/-- Which fallible operations of the install succeed in a given run.  The
remaining steps use `subprocess.call`/plain file writes and do not raise in
the embedded model. -/
structure InstallEnv where
  downloadOk : Bool
  extractOk : Bool
  copyOk : Bool
deriving DecidableEq

/-- Errors `_install_ipmi_exporter` can propagate. -/
inductive InstallErr
  | downloadFailure
  | archiveFailure
  | copyFailure
deriving DecidableEq

/-- Temporary artifacts of the download-and-extract phase that remain on the
host after the call returns or propagates. -/
structure TempArtifacts where
  archivePresent : Bool
  tmpDirPresent : Bool
deriving DecidableEq

/-- The full provisioning order of `_install_ipmi_exporter`. -/
def installStepsAll : List Step :=
  [Step.download, Step.extractArchive, Step.copyBinary, Step.freeipmi,
   Step.userGroup, Step.configFile, Step.sudoers, Step.serviceUnit,
   Step.sysconfig]

/-- `_install_ipmi_exporter` (charm.py lines 113–150): result, surviving
temporary artifacts, and the trace of steps attempted, as a function of which
fallible operations succeed. -/
def installIpmiExporterRun (env : InstallEnv) :
    Except InstallErr Unit × TempArtifacts × List Step :=
  if env.downloadOk = false then
    (Except.error InstallErr.downloadFailure, ⟨false, false⟩, [Step.download])
  else if env.extractOk = false then
    (Except.error InstallErr.archiveFailure, ⟨true, false⟩,
      [Step.download, Step.extractArchive])
  else if env.copyOk = false then
    (Except.error InstallErr.copyFailure, ⟨true, false⟩,
      [Step.download, Step.extractArchive, Step.copyBinary])
  else
    (Except.ok (), ⟨false, false⟩, installStepsAll)

/-! ### Theorems for claims C3, C4 and C5 -/

/-- Claim C3: on the documented output shape the code does extract `1.9.1`;
but because the dots in `([0-9]+.[0-9]+.[0-9]+)` are unescaped wildcards, an
output with NO dotted-triple substring of the form `N.N.N` — here a bare
run of five digits, `12345` — still matches, and `_set_charm_version`
silently reports `12345` instead of failing with a version-parse error. -/
theorem set_charm_version_unescaped_dots :
    setCharmVersionModel
        "ipmi_exporter version 1.9.1 (branch: HEAD, revision: abc)"
      = VersionResult.found "1.9.1" ∧
    hasDottedTriple ("ipmi_exporter revision 12345").toList = false ∧
    setCharmVersionModel "ipmi_exporter revision 12345"
      = VersionResult.found "12345" := by
  refine ⟨by decide, by decide, by decide⟩

/-- Claim C4 counterexample: the claim states the downloaded archive is
deleted on every outcome, including extraction failure.  In the run where the
download succeeds and extraction raises, the `output.unlink()` at line 143 is
skipped and `/tmp/ipmi-exporter.tar.gz` survives the call. -/
theorem install_archive_survives_extract_failure :
    (installIpmiExporterRun ⟨true, false, true⟩).2.1.archivePresent = true ∧
    exOk (installIpmiExporterRun ⟨true, false, true⟩).1 = false := ⟨rfl, rfl⟩

/-- Claim C4 (amended): the temporary scratch directory is removed on every
outcome (the `TemporaryDirectory` context manager cleans up even when
extraction raises), but the downloaded archive is removed only on the
successful path: it survives exactly when the download succeeded and
extraction or the binary copy failed. -/
theorem install_temp_cleanup :
    ∀ env : InstallEnv,
      (installIpmiExporterRun env).2.1.tmpDirPresent = false ∧
      (installIpmiExporterRun env).2.1.archivePresent
        = (env.downloadOk && (!env.extractOk || !env.copyOk)) := by
  intro env
  rcases env with ⟨d, e, c⟩
  cases d <;> cases e <;> cases c <;> exact ⟨rfl, rfl⟩

/-- Claim C5: `handleInstall` runs the provisioning steps in the fixed source
order (binary download/extract/copy, dependency install, service account,
configuration file, privilege grant, service-unit registration, sysconfig
render); every run's trace is a prefix of that order, and whenever the
service-unit step is attempted, the binary installation and the service
account creation appear before it in the trace. -/
theorem install_fixed_order :
    (installIpmiExporterRun ⟨true, true, true⟩).2.2 = installStepsAll ∧
    (∀ env : InstallEnv, ∃ n : Nat,
      (installIpmiExporterRun env).2.2 = installStepsAll.take n) ∧
    (∀ env : InstallEnv,
      Step.serviceUnit ∈ (installIpmiExporterRun env).2.2 →
        List.Sublist [Step.copyBinary, Step.userGroup, Step.serviceUnit]
          (installIpmiExporterRun env).2.2) := by
  refine ⟨rfl, ?_, ?_⟩
  · intro env
    rcases env with ⟨d, e, c⟩
    cases d
    · exact ⟨1, rfl⟩
    · cases e
      · exact ⟨2, rfl⟩
      · cases c
        · exact ⟨3, rfl⟩
        · exact ⟨9, rfl⟩
  · intro env h
    rcases env with ⟨d, e, c⟩
    cases d <;> cases e <;> cases c <;> first
      | exact absurd h (by decide)
      | decide

/-- Claim C5 witness: on the all-successful run the service-unit step is in
the trace, and the binary copy and service-account steps precede it. -/
theorem install_fixed_order_witness :
    List.Sublist [Step.copyBinary, Step.userGroup, Step.serviceUnit]
      (installIpmiExporterRun ⟨true, true, true⟩).2.2 :=
  install_fixed_order.2.2 ⟨true, true, true⟩ (by decide)

/-! ### Privilege grant (`_create_sudoers_file_for_ipmi_exporter`)

`charm.py` lines 206–218: `open("/etc/sudoers.d/ipmi_exporter", "w")` and one
`f.write` of a triple-quoted Python literal.  Inside that literal each
backslash-newline is a line-continuation escape (removed from the string), so
the rule is a single line; the 30-space indentation of the continuation lines
and the trailing whitespace survive verbatim, and only the last path is
followed by a real newline (plus the 16 spaces preceding the closing quotes).
-/

/-- `n` space characters. -/
def spaces (n : Nat) : String :=
  String.mk (List.replicate n ' ')

/-- The exact text written to `/etc/sudoers.d/ipmi_exporter`
(charm.py lines 211–218). -/
def sudoersContent : String :=
  "ipmi_exporter ALL = NOPASSWD: /usr/sbin/ipmimonitoring," ++ spaces 30
    ++ "/usr/sbin/ipmi-sensors," ++ spaces 30
    ++ "/usr/sbin/ipmi-dcmi," ++ spaces 30
    ++ "/usr/sbin/ipmi-raw," ++ spaces 30
    ++ "/usr/sbin/bmc-info," ++ spaces 30
    ++ "/usr/sbin/ipmi-chassis," ++ spaces 30
    ++ "/usr/sbin/ipmi-sel" ++ spaces 16 ++ "\n" ++ spaces 16

/-- The command entries of the sudoers rule: the text after the first `':'`
(the one terminating `NOPASSWD:`), split on `','`, each entry stripped of
surrounding whitespace — sudoers' own reading of a command list. -/
def sudoersCommandEntries : List String :=
  match afterFirst ':' sudoersContent.toList with
  | none => []
  | some rest => (splitChar ',' rest).map (fun e => String.mk (trimWS e))

/-- File operations observable on the host while the charm writes a file. -/
inductive FileOp
  | openTruncate (path : String)
  | writeContent (path : String) (content : String)
  | closeFile (path : String)
  | unlinkFile (path : String)
  | renameFile (src dst : String)
deriving DecidableEq

/-- The privilege-grant file's path. -/
def sudoersPath : String := "/etc/sudoers.d/ipmi_exporter"

/-- The sequence of file operations performed by
`_create_sudoers_file_for_ipmi_exporter` (charm.py lines 209–218):
`open(sudoers, "w")` truncates/creates the final path in place, one `write`,
then the `with` block closes the handle.  No temporary path, no rename. -/
def sudoersWriteOps : List FileOp :=
  [FileOp.openTruncate sudoersPath,
   FileOp.writeContent sudoersPath sudoersContent,
   FileOp.closeFile sudoersPath]

/-- Is the operation a rename? -/
def isRenameOp : FileOp → Bool
  | FileOp.renameFile _ _ => true
  | _ => false

/-- Content of the grant file (`none` = absent) after one file operation, as
seen by a concurrent reader of `sudoersPath`. -/
def applyOp (st : Option String) (op : FileOp) : Option String :=
  match op with
  | FileOp.openTruncate p => if p = sudoersPath then some "" else st
  | FileOp.writeContent p c => if p = sudoersPath then some c else st
  | FileOp.closeFile _ => st
  | FileOp.unlinkFile p => if p = sudoersPath then none else st
  | FileOp.renameFile _ dst => if dst = sudoersPath then some "" else st

/-! ### Sysconfig rendering (`_render_sysconfig`, charm.py lines 233–262)

The target `/etc/sysconfig/ipmi_exporter` is unlinked when it exists and then
rewritten with `write_text(template.render(context))`; the prior content never
flows into the new content.  The Jinja template itself
(`templates/ipmi_exporter.tmpl`) is not part of the source tree here, so its
output is modelled from the spec. -/

/-- Modelled from the spec: the template file `templates/ipmi_exporter.tmpl`
is not under `src/`; per the specification the rendered sysconfig text
carries the `listen_address` value in the defined key format
(`listen_address=<value>`). -/
def renderSysconfigTemplate (listenAddress : String) : String :=
  "listen_address=" ++ listenAddress

/-- File operations `_render_sysconfig` performs on the sysconfig target
(charm.py lines 259–262): unlink when it exists, then `write_text` of the
rendered template. -/
def sysconfigOps (priorExists : Bool) (listenAddress : String) : List FileOp :=
  (if priorExists then [FileOp.unlinkFile "/etc/sysconfig/ipmi_exporter"] else [])
    ++ [FileOp.writeContent "/etc/sysconfig/ipmi_exporter"
          (renderSysconfigTemplate listenAddress)]

/-- Content of the sysconfig file after one of the operations above
(`none` = absent). -/
def applySysconfigOp (st : Option String) (op : FileOp) : Option String :=
  match op with
  | FileOp.openTruncate _ => some ""
  | FileOp.writeContent _ c => some c
  | FileOp.closeFile _ => st
  | FileOp.unlinkFile _ => none
  | FileOp.renameFile _ _ => st

/-- Final content of `/etc/sysconfig/ipmi_exporter` after `_render_sysconfig`
runs against a file whose prior content is `prior`. -/
def sysconfigFinal (prior : Option String) (listenAddress : String) : Option String :=
  List.foldl applySysconfigOp prior (sysconfigOps prior.isSome listenAddress)

/-! ### Theorems for claims C6, C7 and C8 -/

/-- Claim C6: the rendered privilege-grant file names exactly the seven fixed
helper binaries after `NOPASSWD:`, in source order; no command entry is the
unrestricted `ALL` (the only `ALL` in the file is the host field before `=`,
which is not a command entry). -/
theorem sudoers_fixed_allowlist :
    sudoersCommandEntries
      = ["/usr/sbin/ipmimonitoring", "/usr/sbin/ipmi-sensors",
         "/usr/sbin/ipmi-dcmi", "/usr/sbin/ipmi-raw", "/usr/sbin/bmc-info",
         "/usr/sbin/ipmi-chassis", "/usr/sbin/ipmi-sel"] ∧
    sudoersCommandEntries.contains "ALL" = false ∧
    strContains sudoersContent "NOPASSWD: ALL" = false ∧
    sudoersContent.length = 390 := by
  refine ⟨by decide, by decide, by decide, by decide⟩

/-- Claim C7 counterexample: the claim states the grant file is written by
write-to-temporary-then-rename, leaving no observable partial state.  The
actual operation sequence contains no rename at all, and the scan of
reader-observable contents contains the state `some ""` — the file exists,
truncated and empty, before the write lands — which differs from the final
content. -/
theorem sudoers_write_no_rename :
    sudoersWriteOps.all (fun op => !(isRenameOp op)) = true ∧
    (List.scanl applyOp none sudoersWriteOps).contains (some "") = true ∧
    (sudoersContent == "") = false := by
  refine ⟨by decide, by decide, by decide⟩

/-- Claim C7 (amended): `_create_sudoers_file_for_ipmi_exporter` writes the
grant file in place: it opens the final path in truncating write mode, writes
the full rule text, and closes — no temporary file and no rename — so a
concurrent reader observes the window `none → some "" → some sudoersContent`,
including an empty (partial) grant file between the truncating open and the
write. -/
theorem sudoers_write_in_place :
    List.foldl applyOp none sudoersWriteOps = some sudoersContent ∧
    List.scanl applyOp none sudoersWriteOps
      = [none, some "", some sudoersContent, some sudoersContent] := by
  refine ⟨by decide, by decide⟩

/-- Claim C8: `_render_sysconfig` totally replaces the sysconfig file: for
every prior content the final file is exactly the rendered template (which
carries the `listen_address` value), and the result does not depend on the
prior content in any way. -/
theorem render_sysconfig_total_replacement :
    (∀ prior : Option String, ∀ la : String,
      sysconfigFinal prior la = some (renderSysconfigTemplate la)) ∧
    strContains (renderSysconfigTemplate "0.0.0.0:9290") "0.0.0.0:9290" = true ∧
    (∀ p1 p2 : Option String, ∀ la : String,
      sysconfigFinal p1 la = sysconfigFinal p2 la) := by
  refine ⟨?_, by decide, ?_⟩
  · intro prior la
    cases prior <;> rfl
  · intro p1 p2 la
    cases p1 <;> cases p2 <;> rfl

/-! ### Event handlers and supervisor exit codes (`_on_start`,
`_on_config_changed`, `_on_stop`)

`charm.py` lines 81–103.  Every supervisor interaction is
`subprocess.call([...])`, whose returned exit status is never inspected:
`_on_start` sets `ActiveStatus("ipmi-exporter started")` unconditionally, and
`_on_config_changed` proceeds to republish the endpoint whatever
`systemctl restart` returned. -/

/-- Observable outcome of `_on_start` (charm.py lines 94–97). -/
structure StartOutcome where
  raisedError : Bool
  statusMsg : String
  commands : List (List String)
deriving DecidableEq

/-- `_on_start` as a function of the exit status of
`systemctl start ipmi_exporter`: the exit status is discarded. -/
def onStartModel (startExit : Int) : StartOutcome :=
  ⟨false, "ipmi-exporter started", [["systemctl", "start", "ipmi_exporter"]]⟩

/-- Observable outcome of `_on_config_changed` (charm.py lines 81–92). -/
structure ConfigChangedOutcome where
  raisedError : Bool
  sysconfigContent : Option String
  restartCommand : List String
  endpointRepublished : Bool
deriving DecidableEq

/-- `_on_config_changed` as a function of the configured listen address, the
prior sysconfig content and the exit status of `systemctl restart`: renders
the sysconfig, issues the restart (exit status discarded), then republishes
the Prometheus endpoint. -/
def onConfigChangedModel (listenAddress : String) (prior : Option String)
    (restartExit : Int) : ConfigChangedOutcome :=
  ⟨false, sysconfigFinal prior listenAddress,
    ["systemctl", "restart", "ipmi_exporter"], true⟩

/-! ### Theorems for claim C9 -/

/-- Claim C9 counterexample: the claim states every non-zero supervisor exit
is reported.  With `systemctl start` exiting 1, `_on_start` raises nothing and
still reports `ActiveStatus("ipmi-exporter started")`; with `systemctl
restart` exiting 1, `_on_config_changed` raises nothing and still republishes
the endpoint. -/
theorem supervisor_nonzero_exit_swallowed :
    (onStartModel 1).raisedError = false ∧
    (onStartModel 1).statusMsg = "ipmi-exporter started" ∧
    (onConfigChangedModel "0.0.0.0:9290" none 1).raisedError = false ∧
    (onConfigChangedModel "0.0.0.0:9290" none 1).endpointRepublished = true := by
  refine ⟨by decide, by decide, by decide, by decide⟩

/-- Claim C9 (amended): the handlers issue `systemctl` commands through
`subprocess.call` and discard the exit status entirely: for every exit code
each handler's observable outcome is identical to the zero-exit outcome, no
error is ever surfaced from a supervisor command, and `_on_stop` proceeds to
the teardown whatever `systemctl stop`/`disable` returned. -/
theorem supervisor_exit_codes_ignored :
    (∀ e : Int, onStartModel e = onStartModel 0
      ∧ (onStartModel e).raisedError = false) ∧
    (∀ la : String, ∀ prior : Option String, ∀ e : Int,
      onConfigChangedModel la prior e = onConfigChangedModel la prior 0
      ∧ (onConfigChangedModel la prior e).raisedError = false) ∧
    (∀ stopE disE : Int, ∀ st : HostResources,
      onStopHandler stopE disE st = onStopHandler 0 0 st) :=
  ⟨fun e => ⟨rfl, rfl⟩, fun la prior e => ⟨rfl, rfl⟩, fun a b st => rfl⟩

/-! ### The `port` accessor (charm.py lines 59–62)

`self.model.config.get("listen-address").split(":")[1]`: when the key is
unset, `config.get` returns `None` and `.split` raises `AttributeError`; when
the value has no `':'`, `split` yields a one-element list and `[1]` raises
`IndexError`; otherwise `[1]` is the field between the first and second `':'`
(or the end of the string). -/

/-- Python exceptions the `port` accessor can raise. -/
inductive PortErr
  | attributeError
  | indexError
deriving DecidableEq

/-- The `port` property: `config.get("listen-address").split(":")[1]`. -/
def portAccessor : Option String → Except PortErr String
  | none => Except.error PortErr.attributeError
  | some s =>
    match (splitChar ':' s.toList).get? 1 with
    | some l => Except.ok (String.mk l)
    | none => Except.error PortErr.indexError

/-- The head field of `splitChar` is the portion before the first
separator. -/
theorem splitChar_head (sep : Char) (s : List Char) :
    ∃ t, splitChar sep s = upTo sep s :: t := by
  induction s with
  | nil => exact ⟨[], rfl⟩
  | cons c rest ih =>
    by_cases h : c = sep
    · subst h
      exact ⟨splitChar c rest, by simp [splitChar, upTo]⟩
    · rcases ih with ⟨t, ht⟩
      exact ⟨t, by simp [splitChar, upTo, h, ht]⟩

/-- Index 1 of a Python `split` is exactly the text between the first
separator and the next one (or the end), when a separator occurs at all. -/
theorem splitChar_get_one (sep : Char) (s : List Char) :
    (splitChar sep s).get? 1 = (afterFirst sep s).map (fun r => upTo sep r) := by
  induction s with
  | nil => rfl
  | cons c rest ih =>
    by_cases h : c = sep
    · subst h
      rcases splitChar_head c rest with ⟨t, ht⟩
      simp [splitChar, afterFirst, ht]
    · rcases splitChar_head sep rest with ⟨t, ht⟩
      rw [ht] at ih
      simp [splitChar, afterFirst, h, ht]
      simpa using ih

/-- Claim C10: the `port` accessor is partial at the public interface: with
the listen-address unset it raises (`config.get` yields `None` and `.split`
raises `AttributeError`); with a value containing at least one `':'` it
returns exactly the substring between the first and the second `':'` (or the
end of the string); with a value containing no `':'` it raises `IndexError`.
The §3 invariant that the listen-address parses to host and port is therefore
an unchecked precondition. -/
theorem port_accessor_partial :
    portAccessor none = Except.error PortErr.attributeError ∧
    (∀ s : String, ∀ r : List Char, afterFirst ':' s.toList = some r →
      portAccessor (some s) = Except.ok (String.mk (upTo ':' r))) ∧
    (∀ s : String, afterFirst ':' s.toList = none →
      portAccessor (some s) = Except.error PortErr.indexError) := by
  refine ⟨rfl, ?_, ?_⟩
  · intro s r h
    show (match (splitChar ':' s.toList).get? 1 with
      | some l => Except.ok (String.mk l)
      | none => Except.error PortErr.indexError) = Except.ok (String.mk (upTo ':' r))
    rw [splitChar_get_one, h]
    rfl
  · intro s h
    show (match (splitChar ':' s.toList).get? 1 with
      | some l => Except.ok (String.mk l)
      | none => Except.error PortErr.indexError) = Except.error PortErr.indexError
    rw [splitChar_get_one, h]
    rfl

/-- Claim C10 witness: on the default listen-address `0.0.0.0:9290` — which
contains a `':'` with suffix `9290` — the accessor returns `9290`. -/
theorem port_accessor_partial_witness :
    portAccessor (some "0.0.0.0:9290") = Except.ok "9290" := by
  have h := port_accessor_partial.2.1 "0.0.0.0:9290" ("9290".toList) (by decide)
  have e : String.mk (upTo ':' ("9290".toList)) = "9290" := by decide
  rw [e] at h
  exact h
